import Mathlib

/-!
Shallow embedding of the pluserable credential / activation-token core.

Sources embedded here:
- src/pluserable/data/models.py : `three_days_from_now`, `ActivationBase`,
  `UserBase` (password property, `_hash_password`, `check_password`,
  `is_activated`);
- src/pluserable/models.py : `BaseModel.__json__`, `ActivationMixin`,
  `NoUsernameMixin` (`_hash_password`, `_set_password`, `validate_user`,
  `is_activated`);
- src/pluserable/views.py : `create_activation`, `ForgotPasswordView`
  (`forgot_password`, `reset_password`).

Modelling conventions:
- `datetime` values become `Nat` seconds; `timedelta(days=3)` is `3 * 86400`.
- The external bcrypt manager (`cryptacular.bcrypt.BCRYPTPasswordManager`,
  an external collaborator of the repository) is abstracted by its contract:
  `crypt.check h s` succeeds exactly when `h` was produced by
  `crypt.encode s`.  We represent a bcrypt digest as a wrapper holding the
  text it verifies; `cryptEncode` and `cryptCheck` below realise exactly
  that contract.
- Python falsiness of strings: `None` and the empty string are both falsy,
  so an optional / possibly-unset string attribute is a `String` in which
  `""` stands for unset, unless `None` behaves differently from `""`
  (then `Option String` is used).
- A Python expression that raises is modelled with `Except PyErr`.
- Randomness (`bag.text.hash.random_hash`) is passed in as an explicit
  argument.
-/

namespace Pluserable

/-- A bcrypt digest, abstracted by the bcrypt contract: the digest produced
from a text verifies that text and no other. -/
structure BcryptHash where
  text : String
deriving DecidableEq, Repr

/-- Model of `crypt.encode` (bcrypt hashing of a text). -/
def cryptEncode (s : String) : BcryptHash := ⟨s⟩

/-- Model of `crypt.check digest text` (bcrypt verification). -/
def cryptCheck (h : BcryptHash) (s : String) : Bool := h.text == s

/-- Python exceptions that the modelled fragments can raise. -/
inductive PyErr where
  | attributeError
  | assertionError
deriving DecidableEq, Repr

/-! ## src/pluserable/data/models.py -/

/-- `three_days_from_now()` = `datetime.utcnow() + timedelta(days=3)`,
with the current clock passed in explicitly (seconds). -/
def three_days_from_now (now : Nat) : Nat := now + 3 * 86400

/-- `ActivationBase`: an activation / password-reset token. -/
structure ActivationBase where
  code : String
  valid_until : Nat
  created_by : String
deriving DecidableEq, Repr

/-- `ActivationBase.__init__(code=None, valid_until=None, created_by="web")`.
`self.code = code or random_hash()`: `None` and `""` are falsy, so the
random draw `randCode` is used for both.  `self.valid_until = valid_until
or three_days_from_now()`: a `datetime` is never falsy, so only `None`
triggers the default. -/
def ActivationBase.init (now : Nat) (randCode : String) (code : Option String)
    (valid_until : Option Nat) (created_by : String) : ActivationBase :=
  { code := match code with
      | some c => if c = "" then randCode else c
      | none => randCode
    valid_until := valid_until.getD (three_days_from_now now)
    created_by := created_by }

/-- `UserBase`: the framework-independent user entity of data/models.py.
`_password` is `Option BcryptHash`: `none` models a credential whose
password hash attribute is unset. -/
structure UserBase where
  email : String
  salt : String
  _password : Option BcryptHash
  activation : Option ActivationBase
deriving DecidableEq, Repr

/-- `UserBase._hash_password(password)`:
`assert self.salt` aborts (an `AssertionError`) when the salt is falsy,
before any hash is computed; otherwise returns
`crypt.encode(password + self.salt)`. -/
def UserBase.hash_password (u : UserBase) (password : String) :
    Except PyErr BcryptHash :=
  if u.salt = "" then .error .assertionError
  else .ok (cryptEncode (password ++ u.salt))

/-- The `password` property setter: `self._password = self._hash_password(value)`. -/
def UserBase.set_password (u : UserBase) (value : String) :
    Except PyErr UserBase :=
  match u.hash_password value with
  | .error e => .error e
  | .ok h => .ok { u with _password := some h }

/-- `UserBase.check_password(password)`:
`if not password: return False`, else
`return crypt.check(self.password, password + self.salt)`.
When the stored hash attribute is unset, reading `self.password` /
passing it to `crypt.check` raises (modelled as `attributeError`). -/
def UserBase.check_password (u : UserBase) (password : String) :
    Except PyErr Bool :=
  if password = "" then .ok false
  else match u._password with
    | none => .error .attributeError
    | some h => .ok (cryptCheck h (password ++ u.salt))

/-- `UserBase.is_activated`: `self.activation is None`. -/
def UserBase.is_activated (u : UserBase) : Bool := u.activation.isNone

/-- `UserBase.__init__(email, password, salt=None, activation=None)`:
asserts the email is truthy, sets `self.salt = self.salt or random_hash(24)`
(`salt0` is the pre-existing attribute value, `""` when unset, and
`randSalt` the random draw), then runs the password setter. -/
def UserBase.construct (email password salt0 randSalt : String)
    (activation : Option ActivationBase) : Except PyErr UserBase :=
  if email = "" then .error .assertionError
  else
    let salt := if salt0 = "" then randSalt else salt0
    match UserBase.set_password
        { email := email, salt := salt, _password := none,
          activation := activation } password with
    | .error e => .error e
    | .ok u => if u._password = none then .error .assertionError else .ok u

/-! ## src/pluserable/models.py -/

/-- A Python value stored in an entity attribute, as far as
`BaseModel.__json__` distinguishes them: datetimes/dates are converted,
everything else passes through. -/
inductive PyVal where
  | str (s : String)
  | num (n : Int)
  | dt (seconds : Nat)
  | noneVal
deriving DecidableEq, Repr

/-- `datetime.isoformat()`, abstracted to an injective rendering. -/
def isoformat (seconds : Nat) : String := "dt" ++ toString seconds

/-- Python `key.startswith(pre)`, on the underlying character lists. -/
def startswith (s pre : String) : Bool := pre.data.isPrefixOf s.data

/-- `BaseModel.__json__(request, convert_date=True)`: iterates `__dict__`
(modelled as an association list), skips the keys in the blacklist
`["password", "_password"]` and every key starting with `"__"` or
`"_sa_"`, and converts datetime/date values to their isoformat string
when `convert_date`. -/
def BaseModel.json (dict : List (String × PyVal)) (convert_date : Bool) :
    List (String × PyVal) :=
  dict.filterMap fun kv =>
    if kv.1 ∈ ["password", "_password"] then none
    else if !startswith kv.1 "__" && !startswith kv.1 "_sa_" then
      some (kv.1, match kv.2 with
        | .dt s => if convert_date then .str (isoformat s) else .dt s
        | v => v)
    else none

/-- An `Activation` row (class built on `ActivationMixin`): the `code`
column is `unique=True, nullable=False, default=random_hash`, the
`valid_until` column defaults to `three_days_from_now`, `created_by`
defaults to `"web"`; `id` is the surrogate primary key from `BaseModel`. -/
structure ActivationMixin where
  id : Nat
  code : String
  valid_until : Nat
  created_by : String
deriving DecidableEq, Repr

/-- A `User` row built on `NoUsernameMixin`: email, password salt, the
`_password` hash column, and the `activation_id` foreign key into the
activation table.  `_password = none` models a user object whose password
hash is `None`; `salt = ""` models an unset salt. -/
structure NoUsernameMixin where
  id : Nat
  email : String
  salt : String
  _password : Option BcryptHash
  activation_id : Option Nat
deriving DecidableEq, Repr

/-- `NoUsernameMixin._hash_password(password)`:
`if not self.salt: self.salt = random_hash(24)` (the draw `randSalt` is
passed in), then returns `crypt.encode(password + self.salt)`.  There is
no assertion: an unset salt is generated on the spot and the hash is
computed with it. -/
def NoUsernameMixin.hash_password (u : NoUsernameMixin)
    (password randSalt : String) : NoUsernameMixin × BcryptHash :=
  let u := if u.salt = "" then { u with salt := randSalt } else u
  (u, cryptEncode (password ++ u.salt))

/-- `NoUsernameMixin._set_password(raw_password)`:
`self._password = self._hash_password(raw_password)` (also reached through
the `password` hybrid-property setter). -/
def NoUsernameMixin.set_password (u : NoUsernameMixin)
    (raw_password randSalt : String) : NoUsernameMixin :=
  let r := u.hash_password raw_password randSalt
  { r.1 with _password := some r.2 }

/-- `NoUsernameMixin.is_activated`: `self.activation_id is None`. -/
def NoUsernameMixin.is_activated (u : NoUsernameMixin) : Bool :=
  u.activation_id.isNone

/-- What Python lets `NoUsernameMixin.validate_user` return: `None`,
`False`, or the user object.  `pyTrue` is included so that the absence of
a `True` result is expressible. -/
inductive PyRet where
  | pyNone
  | pyFalse
  | pyTrue
  | pyUser (u : NoUsernameMixin)
deriving DecidableEq, Repr

/-- `NoUsernameMixin.validate_user(user, password)`:
`if not user: return None`; `if user.password is None: return False`;
`if crypt.check(user.password, password + user.salt): return user`;
otherwise falls off the end, returning `None`. -/
def NoUsernameMixin.validate_user (user : Option NoUsernameMixin)
    (password : String) : PyRet :=
  match user with
  | none => .pyNone
  | some user =>
    match user._password with
    | none => .pyFalse
    | some h =>
      if cryptCheck h (password ++ user.salt) then .pyUser user else .pyNone

/-! ## Repository state and src/pluserable/views.py

The repository object (`request.replusitory`) is not under src/; its
query and deletion methods are modelled from the spec, over an explicit
database state. -/

/-- The persistent state the views operate on: the activation table and
the user table. -/
structure DBState where
  activations : List ActivationMixin
  users : List NoUsernameMixin
deriving DecidableEq, Repr

/-- Modelled from the spec: repository `q_activation_by_code` /
`findTokenByCode(code) -> Token | absent`, a lookup on the unique `code`
column. -/
def q_activation_by_code (st : DBState) (code : String) :
    Option ActivationMixin :=
  st.activations.find? (fun a => a.code == code)

/-- Modelled from the spec: repository `q_user_by_activation`, the query
`NoUsernameMixin.get_by_activation` runs — first user whose
`activation_id` equals the activation id. -/
def q_user_by_activation (st : DBState) (a : ActivationMixin) :
    Option NoUsernameMixin :=
  st.users.find? (fun u => u.activation_id == some a.id)

/-- Modelled from the spec: repository `q_user_by_email`, the query
`NoUsernameMixin.get_by_email` runs. -/
def q_user_by_email (st : DBState) (email : String) :
    Option NoUsernameMixin :=
  st.users.find? (fun u => u.email == email)

/-- Modelled from the spec: repository `deleteToken` / `delete_activation`.
The row is removed; on flush the ORM nulls the `activation_id` foreign key
of users that referenced it. -/
def delete_activation (st : DBState) (a : ActivationMixin) : DBState :=
  { activations := st.activations.filter (fun x => x.id != a.id)
    users := st.users.map (fun u =>
      if u.activation_id == some a.id then { u with activation_id := none }
      else u) }

/-- Replace the user row with id `uid` by `user` (the ORM persisting an
attribute mutation on flush). -/
def DBState.updateUser (st : DBState) (uid : Nat) (user : NoUsernameMixin) :
    DBState :=
  { st with users := st.users.map (fun u => if u.id == uid then user else u) }

/-- Outcome of `ForgotPasswordView.reset_password` on a POST with a valid
form. -/
inductive ResetOutcome where
  | notFound
  | attributeError
  | done
deriving DecidableEq, Repr

/-- `ForgotPasswordView.reset_password` (POST path, form already valid):
looks up the activation by the `code` from the URL — `HTTPNotFound` when
absent; fetches the user owning it — when that query returns `None`,
accessing `user.password` (or `user.email` on GET) raises
`AttributeError`; otherwise sets `user.password = password` and deletes
the activation. -/
def reset_password (st : DBState) (code password randSalt : String) :
    ResetOutcome × DBState :=
  match q_activation_by_code st code with
  | none => (.notFound, st)
  | some activation =>
    match q_user_by_activation st activation with
    | none => (.attributeError, st)
    | some user =>
      let user := user.set_password password randSalt
      (.done, delete_activation (st.updateUser user.id user) activation)

/-- Outcome of `ForgotPasswordView.forgot_password` on a POST with a valid
form. -/
inductive ForgotOutcome where
  | attributeError
  | done
deriving DecidableEq, Repr

/-- `ForgotPasswordView.forgot_password` (POST path, form already valid):
fetches the user by email — when that query returns `None`, the assignment
`user.activation = activation` raises `AttributeError`; otherwise a fresh
`Activation` row `newAct` is created (its `code` and `id` coming from the
column defaults at flush), persisted, and the user is pointed at it.  The
user's previous activation row, if any, is not touched. -/
def forgot_password (st : DBState) (email : String)
    (newAct : ActivationMixin) : ForgotOutcome × DBState :=
  match q_user_by_email st email with
  | none => (.attributeError, st)
  | some user =>
    (.done,
      { activations := newAct :: st.activations
        users := st.users.map (fun u =>
          if u.id == user.id then { u with activation_id := some newAct.id }
          else u) })

/-- Errors the persistence layer reports to `create_activation`. -/
inductive RepoErr where
  | uniquenessViolation
deriving DecidableEq, Repr

/-- Modelled from the spec: repository `store_activation` / `saveToken`,
which raises `UniquenessViolation` when the token code collides with a
stored one (the unique constraint on the `code` column).  The stored
codes are the state. -/
def store_activation (codes : List String) (code : String) :
    Except RepoErr (List String) :=
  if codes.contains code then .error .uniquenessViolation
  else .ok (code :: codes)

/-- `create_activation(request, user)` (views.py), token-issuing core:
builds `Activation()` — drawing one code, `rands 0` — and stores it.  A
`UniquenessViolation` from the store propagates; there is no retry and no
second draw. -/
def create_activation (codes : List String) (now : Nat)
    (rands : Nat → String) : Except RepoErr (List String × ActivationBase) :=
  let activation := ActivationBase.init now (rands 0) none none "web"
  match store_activation codes activation.code with
  | .error e => .error e
  | .ok codes => .ok (codes, activation)

/-! ## Theorems -/

/-- Appending a fixed salt on the right is injective in the password. -/
theorem append_salt_cancel_iff (p q s : String) : p ++ s = q ++ s ↔ p = q := by
  constructor
  · intro h
    have hd : p.data ++ s.data = q.data ++ s.data := by
      have h2 := congrArg String.data h
      simpa [String.data_append] using h2
    exact String.ext (List.append_cancel_right hd)
  · intro h
    rw [h]

/-- Claim C1: for a credential on which `set_password p` succeeded (in
particular any freshly constructed one) and non-empty `p`,
`check_password p` is `True`, and `check_password q` is `False` for every
non-empty `q ≠ p`: the check recomputes the hash with the stored salt and
compares. -/
theorem C1_set_password_then_check_password (u u2 : UserBase) (p q : String)
    (hp : p ≠ "") (hq : q ≠ "")
    (hset : u.set_password p = Except.ok u2) :
    u2.check_password p = Except.ok true ∧
    (q ≠ p → u2.check_password q = Except.ok false) := by
  unfold UserBase.set_password UserBase.hash_password at hset
  by_cases hs : u.salt = ""
  · simp [hs] at hset
  · simp only [hs, if_neg, ite_false] at hset
    cases hset
    refine ⟨?_, fun hqp => ?_⟩
    · simp [UserBase.check_password, hp, cryptCheck, cryptEncode]
    · simp only [UserBase.check_password, hq, if_neg, ite_false, cryptCheck,
        cryptEncode, Except.ok.injEq]
      simp only [beq_eq_false_iff_ne, ne_eq, append_salt_cancel_iff]
      exact fun h => hqp (h.symm ▸ rfl)

def C1user : UserBase :=
  { email := "who", salt := "somesalt", _password := none, activation := none }

def C1user2 : UserBase :=
  { C1user with _password := some (cryptEncode ("hunter2" ++ "somesalt")) }

theorem C1_witness :
    C1user2.check_password "wrong" = Except.ok false :=
  (C1_set_password_then_check_password C1user C1user2 "hunter2" "wrong"
    (by decide) (by decide) rfl).2 (by decide)

/-- Claim C2 (amended): in `UserBase`, hashing while the salt is unset
fails fast — the assertion aborts before any hash is computed — and a
successful hash implies the salt was set.  In `NoUsernameMixin`, hashing
with an unset salt does not abort: `_hash_password` generates a salt first
and computes the hash with it, so a hash is still never computed with an
unset salt. -/
theorem C2_salt_always_set_before_hash (u : UserBase) (n : NoUsernameMixin)
    (password randSalt : String) (hr : randSalt ≠ "") :
    (u.salt = "" → u.hash_password password = Except.error PyErr.assertionError) ∧
    (∀ h, u.hash_password password = Except.ok h →
      u.salt ≠ "" ∧ h = cryptEncode (password ++ u.salt)) ∧
    ((n.hash_password password randSalt).1.salt ≠ "" ∧
      (n.hash_password password randSalt).2 =
        cryptEncode (password ++ (n.hash_password password randSalt).1.salt)) := by
  refine ⟨fun hs => by simp [UserBase.hash_password, hs], fun h hok => ?_, ?_⟩
  · unfold UserBase.hash_password at hok
    by_cases hs : u.salt = ""
    · simp [hs] at hok
    · simp only [hs, if_neg, ite_false, Except.ok.injEq] at hok
      exact ⟨hs, hok.symm⟩
  · unfold NoUsernameMixin.hash_password
    by_cases hs : n.salt = ""
    · simp [hs, hr]
    · simp [hs]

theorem C2_witness :
    UserBase.hash_password
        { email := "who", salt := "", _password := none, activation := none }
        "pw" = Except.error PyErr.assertionError :=
  (C2_salt_always_set_before_hash
    { email := "who", salt := "", _password := none, activation := none }
    { id := 1, email := "who", salt := "", _password := none,
      activation_id := none }
    "pw" "R" (by decide)).1 rfl

/-- Claim C2 counterexample: `NoUsernameMixin._hash_password` on a
credential whose salt is unset does not abort — no assertion fires; it
generates a salt and returns a computed hash. -/
theorem C2_counterexample :
    NoUsernameMixin.hash_password
        { id := 1, email := "who", salt := "", _password := none,
          activation_id := none } "pw" "R24" =
      ({ id := 1, email := "who", salt := "R24", _password := none,
         activation_id := none }, cryptEncode ("pw" ++ "R24")) := by
  decide

/-- Claim C3 (amended): `check_password` returns `False` without raising
whenever the candidate password is empty or absent, even when the stored
hash is unset, and `validate_user` returns `False` whenever the stored
hash is `None`; but `check_password` with a non-empty candidate on a
credential whose hash is unset raises (`crypt.check` on an unset hash)
instead of returning `False`. -/
theorem C3_empty_candidate_and_unset_hash (u : UserBase)
    (n : NoUsernameMixin) (p : String) (hp : p ≠ "") :
    u.check_password "" = Except.ok false ∧
    (n._password = none →
      NoUsernameMixin.validate_user (some n) p = PyRet.pyFalse) ∧
    (u._password = none →
      u.check_password p = Except.error PyErr.attributeError) := by
  refine ⟨by simp [UserBase.check_password], fun hn => ?_, fun hu => ?_⟩
  · simp [NoUsernameMixin.validate_user, hn]
  · simp [UserBase.check_password, hp, hu]

theorem C3_witness :
    UserBase.check_password
        { email := "who", salt := "s", _password := none, activation := none }
        "" = Except.ok false :=
  (C3_empty_candidate_and_unset_hash
    { email := "who", salt := "s", _password := none, activation := none }
    { id := 1, email := "who", salt := "s", _password := none,
      activation_id := none }
    "x" (by decide)).1

/-- Claim C3 counterexample: on a credential with no password set,
`check_password` with the non-empty candidate `"x"` raises instead of
returning `False`. -/
theorem C3_counterexample :
    UserBase.check_password
        { email := "who", salt := "somesalt", _password := none,
          activation := none } "x" = Except.error PyErr.attributeError := rfl

/-- Claim C6: with no explicit `valid_until` override, a new activation
expires exactly three days after creation; an explicit override is used
verbatim. -/
theorem C6_default_expiry_three_days (now v : Nat)
    (randCode created_by : String) (code : Option String) :
    (ActivationBase.init now randCode code none created_by).valid_until =
      now + 3 * 86400 ∧
    (ActivationBase.init now randCode code (some v) created_by).valid_until =
      v :=
  ⟨rfl, rfl⟩

/-- Claim C9: `validate_user(user, password)` returns `None` when `user`
is absent, `False` when the stored hash is `None`, the user object itself
when the stored hash verifies the candidate, `None` when it does not —
and it never returns `True`. -/
theorem C9_validate_user_return_values (user : NoUsernameMixin)
    (password : String) :
    NoUsernameMixin.validate_user none password = PyRet.pyNone ∧
    (user._password = none →
      NoUsernameMixin.validate_user (some user) password = PyRet.pyFalse) ∧
    (∀ h, user._password = some h →
      cryptCheck h (password ++ user.salt) = true →
      NoUsernameMixin.validate_user (some user) password = PyRet.pyUser user) ∧
    (∀ h, user._password = some h →
      cryptCheck h (password ++ user.salt) = false →
      NoUsernameMixin.validate_user (some user) password = PyRet.pyNone) ∧
    (∀ ou pw, NoUsernameMixin.validate_user ou pw ≠ PyRet.pyTrue) := by
  refine ⟨rfl, fun hn => by simp [NoUsernameMixin.validate_user, hn],
    fun h hh hc => by simp [NoUsernameMixin.validate_user, hh, hc],
    fun h hh hc => by simp [NoUsernameMixin.validate_user, hh, hc],
    fun ou pw => ?_⟩
  cases ou with
  | none => simp [NoUsernameMixin.validate_user]
  | some u =>
    cases hu : u._password with
    | none => simp [NoUsernameMixin.validate_user, hu]
    | some h =>
      by_cases hc : cryptCheck h (pw ++ u.salt) <;>
        simp [NoUsernameMixin.validate_user, hu, hc]

theorem C9_witness :
    NoUsernameMixin.validate_user
      (some { id := 1, email := "who", salt := "s", _password := none,
              activation_id := none }) "pw" = PyRet.pyFalse :=
  (C9_validate_user_return_values
    { id := 1, email := "who", salt := "s", _password := none,
      activation_id := none } "pw").2.1 rfl

/-- Claim C10: no key of the dictionary `__json__` returns is
`"password"` or `"_password"`, and none starts with `"__"` or `"_sa_"` —
the password hash is never exposed through JSON serialisation, whatever
the entity attributes are. -/
theorem C10_json_never_exposes_password (dict : List (String × PyVal))
    (convert_date : Bool) (k : String)
    (hk : k ∈ (BaseModel.json dict convert_date).map Prod.fst) :
    k ≠ "password" ∧ k ≠ "_password" ∧
    startswith k "__" = false ∧ startswith k "_sa_" = false := by
  rcases List.mem_map.mp hk with ⟨kv2, hmem, hfst⟩
  unfold BaseModel.json at hmem
  simp only [List.mem_filterMap] at hmem
  rcases hmem with ⟨kv, hin, hf⟩
  by_cases hb : kv.1 ∈ ["password", "_password"]
  · rw [if_pos hb] at hf
    exact absurd hf (by simp)
  · rw [if_neg hb] at hf
    by_cases hs : (!startswith kv.1 "__" && !startswith kv.1 "_sa_") = true
    · rw [if_pos hs] at hf
      have hk1 : kv2.1 = kv.1 := by
        injection hf with hf
        rw [← hf]
      have hkk : k = kv.1 := by rw [← hfst, hk1]
      subst hkk
      simp only [List.mem_cons, List.not_mem_nil, or_false] at hb
      push_neg at hb
      rcases Bool.and_eq_true .. |>.mp hs with ⟨h1, h2⟩
      exact ⟨hb.1, hb.2, Bool.not_eq_true' .. |>.mp h1,
        Bool.not_eq_true' .. |>.mp h2⟩
    · rw [if_neg hs] at hf
      exact absurd hf (by simp)

def C10dict : List (String × PyVal) :=
  [("email", PyVal.str "e"), ("password", PyVal.str "plain"),
   ("_password", PyVal.str "hash"), ("_sa_instance_state", PyVal.noneVal),
   ("__private", PyVal.num 1), ("registered_date", PyVal.dt 5)]

theorem C10_witness :
    ("email" : String) ≠ "password" ∧ ("email" : String) ≠ "_password" ∧
    startswith "email" "__" = false ∧ startswith "email" "_sa_" = false :=
  C10_json_never_exposes_password C10dict true "email" (by decide)

theorem delete_activation_activations (s : DBState) (a : ActivationMixin) :
    (delete_activation s a).activations =
      s.activations.filter (fun x => x.id != a.id) := rfl

theorem updateUser_activations (s : DBState) (uid : Nat)
    (u : NoUsernameMixin) : (s.updateUser uid u).activations =
      s.activations := rfl

/-- Claim C4: when the token codes stored in the state are pairwise
distinct (the unique constraint on the `code` column), a successful
redeem of a code deletes its activation, so redeeming the same code again
returns `NotFound`: a code is never redeemable twice. -/
theorem C4_redeem_consumes_token (st st2 : DBState)
    (code password password2 randSalt randSalt2 : String)
    (hnodup : (st.activations.map ActivationMixin.code).Nodup)
    (h : reset_password st code password randSalt =
      (ResetOutcome.done, st2)) :
    reset_password st2 code password2 randSalt2 =
      (ResetOutcome.notFound, st2) := by
  unfold reset_password at h
  split at h
  next => simp at h
  next a e1 =>
    split at h
    next => simp at h
    next user e2 =>
      simp only [Prod.mk.injEq, true_and] at h
      have e1' : st.activations.find? (fun x => x.code == code) = some a := e1
      have hamem : a ∈ st.activations := List.mem_of_find?_eq_some e1'
      have hpa := List.find?_some e1'
      have hacode : a.code = code := eq_of_beq hpa
      have hnone : q_activation_by_code st2 code = none := by
        unfold q_activation_by_code
        rw [← h, delete_activation_activations, updateUser_activations]
        apply List.find?_eq_none.mpr
        intro x hx hbeq
        have hx2 := List.mem_filter.mp hx
        have hxa : x = a :=
          List.inj_on_of_nodup_map hnodup hx2.1 hamem
            (by rw [eq_of_beq hbeq, hacode])
        have hne : (x.id != a.id) = true := hx2.2
        rw [hxa] at hne
        simp at hne
      simp only [reset_password, hnone]

def C4state : DBState :=
  { activations :=
      [{ id := 1, code := "tok", valid_until := 100, created_by := "web" }]
    users := [{ id := 10, email := "who", salt := "s",
                _password := some (cryptEncode "oldpws"),
                activation_id := some 1 }] }

def C4state2 : DBState := (reset_password C4state "tok" "newpw" "r").2

theorem C4_witness :
    reset_password C4state2 "tok" "again" "r" =
      (ResetOutcome.notFound, C4state2) :=
  C4_redeem_consumes_token C4state C4state2 "tok" "newpw" "again" "r" "r"
    (by decide) rfl

/-- Claim C5 (amended): issuing a new token points the user at it but
neither deletes nor invalidates the previous one — every activation row
stored before the issue survives it, so the old code still resolves to
its activation; redeeming a code whose activation no longer has an owning
user raises `AttributeError` (the `None` user is dereferenced) rather
than returning `NotFound`. -/
theorem C5_reissue_leaves_old_token (st st2 : DBState)
    (email password randSalt : String) (newAct : ActivationMixin)
    (h : forgot_password st email newAct = (ForgotOutcome.done, st2)) :
    st2.activations = newAct :: st.activations ∧
    (∀ oldCode a, q_activation_by_code st2 oldCode = some a →
      q_user_by_activation st2 a = none →
      reset_password st2 oldCode password randSalt =
        (ResetOutcome.attributeError, st2)) := by
  unfold forgot_password at h
  cases e1 : q_user_by_email st email with
  | none => rw [e1] at h; simp at h
  | some user =>
    rw [e1] at h
    simp only [Prod.mk.injEq, true_and] at h
    constructor
    · rw [← h]
    · intro oldCode a hfind hnouser
      simp only [reset_password, hfind, hnouser]

def C5state : DBState :=
  { activations := [{ id := 1, code := "oldcode", valid_until := 100,
                      created_by := "web" }]
    users := [{ id := 10, email := "who", salt := "s",
                _password := some (cryptEncode "ph"),
                activation_id := some 1 }] }

def C5newAct : ActivationMixin :=
  { id := 2, code := "newcode", valid_until := 200, created_by := "web" }

def C5state2 : DBState := (forgot_password C5state "who" C5newAct).2

/-- Claim C5 counterexample: after a second token is issued for the same
user, redeeming the old code does not return `NotFound` — the old
activation row is still found by its code, and the redeem attempt raises
`AttributeError` because no user owns the stale activation any more. -/
theorem C5_counterexample :
    forgot_password C5state "who" C5newAct = (ForgotOutcome.done, C5state2) ∧
    (reset_password C5state2 "oldcode" "pw" "r").1 =
      ResetOutcome.attributeError ∧
    (reset_password C5state2 "oldcode" "pw" "r").1 ≠
      ResetOutcome.notFound := by
  refine ⟨rfl, rfl, ?_⟩
  intro hcontra
  exact absurd (rfl.trans hcontra) (by decide)

theorem C5_witness :
    reset_password C5state2 "oldcode" "x" "r" =
      (ResetOutcome.attributeError, C5state2) :=
  (C5_reissue_leaves_old_token C5state C5state2 "who" "x" "r" C5newAct
    rfl).2 "oldcode"
    { id := 1, code := "oldcode", valid_until := 100, created_by := "web" }
    rfl rfl

/-- Claim C7 (amended): `create_activation` draws a token code exactly
once; when the persistence layer reports a uniqueness violation the error
propagates immediately as a fatal failure, with no regeneration and no
retry — the outcome depends only on the first draw. -/
theorem C7_collision_not_retried (codes : List String) (now : Nat)
    (rands rands2 : Nat → String)
    (hcol : rands 0 ∈ codes) :
    create_activation codes now rands =
      Except.error RepoErr.uniquenessViolation ∧
    (rands2 0 = rands 0 →
      create_activation codes now rands2 =
        create_activation codes now rands) := by
  constructor
  · unfold create_activation ActivationBase.init store_activation
    simp [hcol]
  · intro h0
    unfold create_activation ActivationBase.init store_activation
    rw [h0]

def C7rands : Nat → String := fun n => if n = 0 then "abc" else "fresh"

/-- Claim C7 counterexample: with the code `"abc"` already stored,
`create_activation` fails with `UniquenessViolation` on the very first
collision, although the next draw, `"fresh"`, would have been stored
successfully — nothing regenerates the code and retries. -/
theorem C7_counterexample :
    create_activation ["abc"] 0 C7rands =
      Except.error RepoErr.uniquenessViolation ∧
    store_activation ["abc"] (C7rands 1) = Except.ok ["fresh", "abc"] :=
  ⟨rfl, rfl⟩

theorem C7_witness :
    create_activation ["abc"] 0 C7rands =
      Except.error RepoErr.uniquenessViolation :=
  (C7_collision_not_retried ["abc"] 0 C7rands C7rands (by decide)).1

/-- Claim C8: `is_activated` holds exactly when no activation token is
attached (`activation is None` for `UserBase`, `activation_id is None`
for `NoUsernameMixin`); consequently, issuing a password-reset token to
an already-activated user makes `is_activated` false, and it becomes true
again once that token is deleted. -/
theorem C8_is_activated_iff_no_activation (u : UserBase)
    (n : NoUsernameMixin) (st st2 : DBState) (email : String)
    (newAct : ActivationMixin) (user : NoUsernameMixin)
    (_hact : user.is_activated = true)
    (hfind : q_user_by_email st email = some user)
    (hforgot : forgot_password st email newAct =
      (ForgotOutcome.done, st2)) :
    (u.is_activated = true ↔ u.activation = none) ∧
    (n.is_activated = true ↔ n.activation_id = none) ∧
    ({ user with activation_id := some newAct.id } ∈ st2.users ∧
      NoUsernameMixin.is_activated
        { user with activation_id := some newAct.id } = false) ∧
    ({ user with activation_id := none } ∈
        (delete_activation st2 newAct).users ∧
      NoUsernameMixin.is_activated
        { user with activation_id := none } = true) := by
  have hmem : user ∈ st.users := List.mem_of_find?_eq_some hfind
  unfold forgot_password at hforgot
  rw [hfind] at hforgot
  simp only [Prod.mk.injEq, true_and] at hforgot
  have hupdated : { user with activation_id := some newAct.id } ∈
      st2.users := by
    rw [← hforgot]
    have h1 := List.mem_map_of_mem
      (fun v => if v.id == user.id then
        { v with activation_id := some newAct.id } else v) hmem
    simpa using h1
  have hdel : { user with activation_id := none } ∈
      (delete_activation st2 newAct).users := by
    unfold delete_activation
    have h1 := List.mem_map_of_mem
      (fun v => if v.activation_id == some newAct.id then
        { v with activation_id := none } else v) hupdated
    simpa using h1
  refine ⟨?_, ?_, ⟨hupdated, rfl⟩, ⟨hdel, rfl⟩⟩
  · unfold UserBase.is_activated
    cases u.activation <;> simp
  · unfold NoUsernameMixin.is_activated
    cases n.activation_id <;> simp

def C8state : DBState :=
  { activations := []
    users := [{ id := 10, email := "who", salt := "s",
                _password := some (cryptEncode "ph"),
                activation_id := none }] }

def C8newAct : ActivationMixin :=
  { id := 7, code := "resetcode", valid_until := 300, created_by := "web" }

def C8state2 : DBState := (forgot_password C8state "who" C8newAct).2

theorem C8_witness :
    NoUsernameMixin.is_activated
      { id := 10, email := "who", salt := "s",
        _password := some (cryptEncode "ph"),
        activation_id := some C8newAct.id } = false :=
  (C8_is_activated_iff_no_activation
    { email := "who", salt := "s", _password := none, activation := none }
    { id := 10, email := "who", salt := "s", _password := none,
      activation_id := none }
    C8state C8state2 "who" C8newAct
    { id := 10, email := "who", salt := "s",
      _password := some (cryptEncode "ph"), activation_id := none }
    rfl rfl rfl).2.2.1.2

end Pluserable
